import Mathlib

/-!
Verification of the StockSage scoring and normalization pipeline.

Shallow embedding of `src/utils/data_normalizer.py` (class `DataNormalizer`)
and `src/agents/aggregator_agent.py` (class `AggregatorAgent`).

Modelling conventions:
* Python floats are modelled as exact rationals (`ℚ`); all constants in the
  source are short decimal literals, which `ℚ` represents exactly.
* A Python dict record is modelled as a structure whose possibly-missing or
  possibly-null keys are `Option` fields.  A `none` argument of type
  `Option <Record>` models the Python value `None` (or, where the source only
  tests falsiness, the empty dict `{}` as well - the two are observationally
  equivalent in every code path below, as noted at each use).
* Python `round(x, 1)` is modelled with Mathlib `round` (half away from zero
  rather than half to even; no claim below evaluates at a tie, and the bound
  |round1 x - x| <= 1/20 holds for either convention).
* `time.time()` is modelled as an explicit argument `now`, stored in the
  `analysis_timestamp` field exactly as the source stores the clock reading.
-/

namespace StockSage

/-- Raw fundamental record (producer: fundamental data agent).  Every numeric
key may be missing or null (`Option`); `error` models a truthy `error` key. -/
structure FundamentalRecord where
  pe_ratio : Option ℚ := none
  pb_ratio : Option ℚ := none
  roe : Option ℚ := none
  debt_to_equity : Option ℚ := none
  profit_margin : Option ℚ := none
  revenue_growth : Option ℚ := none
  current_price : Option ℚ := none
  market_cap : Option ℚ := none
  data_quality : Option String := none
  error : Bool := false
deriving DecidableEq

/-- Raw sentiment record.  `avg_sentiment = none` models a missing or null
key (the source reads it with `.get('avg_sentiment', 0.0)` and then skips a
null, which contributes exactly as much as the default `0.0`). -/
structure SentimentRecord where
  avg_sentiment : Option ℚ := none
  total_articles : ℕ := 0
  positive_count : ℕ := 0
  negative_count : ℕ := 0
  sentiment_volatility : ℚ := 0
  error : Bool := false
deriving DecidableEq

/-- Screening record: passed to `aggregate_scores` but never read by it. -/
structure ScreeningRecord where
deriving DecidableEq

/-- A non-error sentiment record with every key present. -/
def mkSentimentRecord (a : Option ℚ) (ta p n : ℕ) (v : ℚ) : SentimentRecord :=
  ⟨a, ta, p, n, v, false⟩

/-! ## DataNormalizer (src/utils/data_normalizer.py)

The benchmark tables of `DataNormalizer.__init__`. -/

structure Benchmarks where
  excellent : ℚ
  good : ℚ
  fair : ℚ
  poor : ℚ

def pe_ratio_benchmarks : Benchmarks := ⟨15, 20, 25, 35⟩

def pb_ratio_benchmarks : Benchmarks := ⟨1.5, 3, 5, 8⟩

def roe_benchmarks : Benchmarks := ⟨0.20, 0.15, 0.10, 0.05⟩

def debt_to_equity_benchmarks : Benchmarks := ⟨0.3, 0.6, 1.0, 1.5⟩

def profit_margin_benchmarks : Benchmarks := ⟨0.20, 0.10, 0.05, 0.02⟩

/-- `DataNormalizer._normalize_pe_ratio` (lines 135-151): `none` for a null or
non-positive PE, otherwise the stepped sub-score. -/
def normalize_pe_ratio (pe : Option ℚ) : Option ℚ :=
  match pe with
  | none => none
  | some pe =>
    if pe ≤ 0 then none
    else if pe ≤ pe_ratio_benchmarks.excellent then some 100
    else if pe ≤ pe_ratio_benchmarks.good then some 85
    else if pe ≤ pe_ratio_benchmarks.fair then some 65
    else if pe ≤ pe_ratio_benchmarks.poor then some 40
    else some (max 0 (40 - (pe - pe_ratio_benchmarks.poor) * 2))

/-- `DataNormalizer._normalize_pb_ratio` (lines 153-169). -/
def normalize_pb_ratio (pb : Option ℚ) : Option ℚ :=
  match pb with
  | none => none
  | some pb =>
    if pb ≤ 0 then none
    else if pb ≤ pb_ratio_benchmarks.excellent then some 100
    else if pb ≤ pb_ratio_benchmarks.good then some 80
    else if pb ≤ pb_ratio_benchmarks.fair then some 60
    else if pb ≤ pb_ratio_benchmarks.poor then some 30
    else some (max 0 (30 - (pb - pb_ratio_benchmarks.poor) * 5))

/-- `DataNormalizer._normalize_roe` (lines 171-191); a value ≤ 1 is read as a
fraction, a value > 1 as a percentage divided by 100. -/
def normalize_roe (roe : Option ℚ) : Option ℚ :=
  match roe with
  | none => none
  | some roe =>
    let roe_value := if roe ≤ 1 then roe else roe / 100
    if roe_value ≥ roe_benchmarks.excellent then some 100
    else if roe_value ≥ roe_benchmarks.good then some 85
    else if roe_value ≥ roe_benchmarks.fair then some 65
    else if roe_value ≥ roe_benchmarks.poor then some 40
    else if roe_value > 0 then some 20
    else some 0

/-- `DataNormalizer._normalize_debt_to_equity` (lines 193-209). -/
def normalize_debt_to_equity (de : Option ℚ) : Option ℚ :=
  match de with
  | none => none
  | some de =>
    if de ≤ debt_to_equity_benchmarks.excellent then some 100
    else if de ≤ debt_to_equity_benchmarks.good then some 80
    else if de ≤ debt_to_equity_benchmarks.fair then some 60
    else if de ≤ debt_to_equity_benchmarks.poor then some 40
    else some (max 0 (40 - (de - debt_to_equity_benchmarks.poor) * 10))

/-- `DataNormalizer._normalize_profit_margin` (lines 211-231). -/
def normalize_profit_margin (pm : Option ℚ) : Option ℚ :=
  match pm with
  | none => none
  | some pm =>
    let margin_value := if pm ≤ 1 then pm else pm / 100
    if margin_value ≥ profit_margin_benchmarks.excellent then some 100
    else if margin_value ≥ profit_margin_benchmarks.good then some 85
    else if margin_value ≥ profit_margin_benchmarks.fair then some 65
    else if margin_value ≥ profit_margin_benchmarks.poor then some 40
    else if margin_value > 0 then some 20
    else some 0

/-- `DataNormalizer._normalize_revenue_growth` (lines 233-256); here the
fraction test is `abs(value) <= 1`. -/
def normalize_revenue_growth (rg : Option ℚ) : Option ℚ :=
  match rg with
  | none => none
  | some rg =>
    let growth_value := if |rg| ≤ 1 then rg else rg / 100
    if growth_value ≥ 0.30 then some 100
    else if growth_value ≥ 0.20 then some 90
    else if growth_value ≥ 0.10 then some 75
    else if growth_value ≥ 0.05 then some 60
    else if growth_value ≥ 0 then some 50
    else if growth_value ≥ -0.05 then some 40
    else if growth_value ≥ -0.10 then some 25
    else some 0

/-- One accumulation step of `normalize_fundamental_score`: an absent
sub-score leaves the pair `(score, total_weight)` unchanged. -/
def addMetric (acc : ℚ × ℚ) (sub : Option ℚ) (w : ℚ) : ℚ × ℚ :=
  match sub with
  | none => acc
  | some v => (acc.1 + v * w, acc.2 + w)

/-- The six accumulations of `normalize_fundamental_score` (lines 39-76):
returns `(Σ subscore·weight, Σ weight)` over the present metrics. -/
def fundWeightedSums (d : FundamentalRecord) : ℚ × ℚ :=
  let acc := addMetric (0, 0) (normalize_pe_ratio d.pe_ratio) 0.20
  let acc := addMetric acc (normalize_pb_ratio d.pb_ratio) 0.15
  let acc := addMetric acc (normalize_roe d.roe) 0.25
  let acc := addMetric acc (normalize_debt_to_equity d.debt_to_equity) 0.15
  let acc := addMetric acc (normalize_profit_margin d.profit_margin) 0.15
  let acc := addMetric acc (normalize_revenue_growth d.revenue_growth) 0.10
  acc

/-- Line 80 of `normalize_fundamental_score`: `final_score = (score /
total_weight) * 100` when any weight was used, else the neutral 50. -/
def fundFinalScore (d : FundamentalRecord) : ℚ :=
  if (fundWeightedSums d).2 > 0 then (fundWeightedSums d).1 / (fundWeightedSums d).2 * 100
  else 50

/-- `DataNormalizer.normalize_fundamental_score` (lines 25-88).  A falsy
record (`None` or `{}`) or a record with a truthy `error` key returns the
neutral 50; otherwise line 80 computes `(score / total_weight) * 100` and
line 84 clamps the result to [0,100]. -/
def normalize_fundamental_score (fd : Option FundamentalRecord) : ℚ :=
  match fd with
  | none => 50
  | some d =>
    if d.error then 50
    else max 0 (min 100 (fundFinalScore d))

/-- Modelled from the spec: the fundamental composite exactly as §4.1 of the
specification words it ("the result is `(accumulated_weighted_sum /
accumulated_weight_used)`, i.e., renormalized over whichever metrics were
available; if zero metrics are available, return 50").  Used only to exhibit
how the source's extra `* 100` factor diverges from this statement. -/
def normalize_fundamental_score_specMean (fd : Option FundamentalRecord) : ℚ :=
  match fd with
  | none => 50
  | some d =>
    if d.error then 50
    else
      let sums := fundWeightedSums d
      if sums.2 > 0 then sums.1 / sums.2 else 50

/-- `DataNormalizer._normalize_article_coverage` (lines 258-271). -/
def normalize_article_coverage (total_articles : ℕ) : ℚ :=
  if total_articles ≥ 15 then 100
  else if total_articles ≥ 10 then 85
  else if total_articles ≥ 5 then 70
  else if total_articles ≥ 2 then 55
  else if total_articles ≥ 1 then 40
  else 20

/-- `DataNormalizer._normalize_sentiment_ratio` (lines 273-290). -/
def normalize_sentiment_ratio (positive_count negative_count : ℕ) : ℚ :=
  let total := positive_count + negative_count
  if total = 0 then 50
  else
    let positive_ratio : ℚ := (positive_count : ℚ) / (total : ℚ)
    if positive_ratio ≥ 0.8 then 100
    else if positive_ratio ≥ 0.6 then 80
    else if positive_ratio ≥ 0.4 then 60
    else if positive_ratio ≥ 0.2 then 40
    else 20

/-- `DataNormalizer._normalize_sentiment_consistency` (lines 292-303). -/
def normalize_sentiment_consistency (volatility : ℚ) : ℚ :=
  if volatility ≤ 0.1 then 100
  else if volatility ≤ 0.2 then 80
  else if volatility ≤ 0.3 then 60
  else if volatility ≤ 0.5 then 40
  else 20

/-- The additive accumulation of `normalize_sentiment_score` (lines 104-127),
before the final clamp. -/
def sentBody (d : SentimentRecord) : ℚ :=
  let score : ℚ := 50
  let score := match d.avg_sentiment with
    | none => score
    | some a => score + a * 25
  let score := score + (normalize_article_coverage d.total_articles - 50) * 0.20
  let score := score + (normalize_sentiment_ratio d.positive_count d.negative_count - 50) * 0.20
  let score := score + (normalize_sentiment_consistency d.sentiment_volatility - 50) * 0.10
  score

/-- `DataNormalizer.normalize_sentiment_score` (lines 90-133): a falsy record
(`None` or `{}`) or an `error` record returns 50; otherwise base 50 plus the
four contributions, clamped once at the very end. -/
def normalize_sentiment_score (sd : Option SentimentRecord) : ℚ :=
  match sd with
  | none => 50
  | some d =>
    if d.error then 50
    else max 0 (min 100 (sentBody d))

/-! ## AggregatorAgent (src/agents/aggregator_agent.py) -/

/-- The fixed `recommendation_thresholds` dict of `AggregatorAgent.__init__`. -/
structure RecommendationThresholds where
  buy : ℚ
  hold_upper : ℚ
  sell : ℚ

def recommendation_thresholds : RecommendationThresholds := ⟨70, 40, 40⟩

/-- Python `round(x, 1)`: rounding to one decimal place. -/
def round1 (x : ℚ) : ℚ := (round (x * 10) : ℤ) / 10

/-- The result dict of `aggregate_scores` (lines 72-100) and of
`_get_error_result` (lines 339-349).  `Option` fields model keys the error
result omits (`none` there); for the pass-through display fields, `none` also
models a missing raw value shown as the string `N/A` (no claim distinguishes
the two). -/
structure AnalysisResult where
  ticker : String
  company_name : String
  overall_score : ℚ
  fundamental_score : ℚ
  sentiment_score : ℚ
  recommendation : String
  reasoning : String
  analysis_timestamp : ℚ
  weights_used_fundamental : Option ℚ := none
  weights_used_sentiment : Option ℚ := none
  current_price : Option ℚ := none
  market_cap : Option ℚ := none
  pe_ratio : Option ℚ := none
  pb_ratio : Option ℚ := none
  roe : Option ℚ := none
  avg_sentiment : Option ℚ := none
  positive_count : Option ℕ := none
  negative_count : Option ℕ := none
  total_articles : Option ℕ := none
  fundamental_quality : Option String := none
  sentiment_quality : Option String := none
  error : Option String := none
deriving DecidableEq

/-- The additive accumulation of `AggregatorAgent._calculate_fundamental_score`
(lines 111-191), before the final clamp. -/
def aggFundBody (d : FundamentalRecord) : ℚ :=
  let score : ℚ := 50
  let score := match d.pe_ratio with
    | none => score
    | some pe =>
      if pe > 0 then
        if pe < 15 then score + 25
        else if pe < 20 then score + 20
        else if pe < 25 then score + 15
        else if pe < 35 then score + 5
        else score - 10
      else score
  let score := match d.pb_ratio with
    | none => score
    | some pb =>
      if pb > 0 then
        if pb < 1.5 then score + 15
        else if pb < 3 then score + 10
        else if pb < 5 then score + 5
        else score - 5
      else score
  let score := match d.roe with
    | none => score
    | some roe =>
      let roe_percent := if roe < 1 then roe * 100 else roe
      if roe_percent > 20 then score + 20
      else if roe_percent > 15 then score + 15
      else if roe_percent > 10 then score + 10
      else if roe_percent > 5 then score + 5
      else score - 5
  let score := match d.profit_margin with
    | none => score
    | some pm =>
      let margin_percent := if pm < 1 then pm * 100 else pm
      if margin_percent > 20 then score + 10
      else if margin_percent > 10 then score + 7
      else if margin_percent > 5 then score + 4
      else if margin_percent > 0 then score + 2
      else score - 5
  let score := match d.debt_to_equity with
    | none => score
    | some de =>
      if de < 0.3 then score + 10
      else if de < 0.6 then score + 7
      else if de < 1.0 then score + 3
      else score - 5
  let score := match d.revenue_growth with
    | none => score
    | some rg =>
      let growth_percent := if rg < 1 then rg * 100 else rg
      if growth_percent > 20 then score + 5
      else if growth_percent > 10 then score + 3
      else if growth_percent < -10 then score - 5
      else score
  score

/-- `AggregatorAgent._calculate_fundamental_score` (lines 108-197).  On a
`None` record the first `.get` raises `AttributeError`, caught by the local
handler which returns the neutral 50. -/
def calculate_fundamental_score (fd : Option FundamentalRecord) : ℚ :=
  match fd with
  | none => 50
  | some d => max 0 (min 100 (aggFundBody d))

/-- The additive accumulation of `AggregatorAgent._calculate_sentiment_score`
(lines 203-247), before the final clamp. -/
def aggSentBody (d : SentimentRecord) : ℚ :=
  let score : ℚ := 50
  let score := match d.avg_sentiment with
    | none => score
    | some a => score + ((a + 1) * 20 - 20)
  let score :=
    if d.total_articles ≥ 10 then score + 20
    else if d.total_articles ≥ 5 then score + 15
    else if d.total_articles ≥ 2 then score + 10
    else if d.total_articles ≥ 1 then score + 5
    else score
  let score :=
    if d.positive_count + d.negative_count > 0 then
      let positive_ratio : ℚ :=
        (d.positive_count : ℚ) / ((d.positive_count + d.negative_count : ℕ) : ℚ)
      if positive_ratio ≥ 0.8 then score + 20
      else if positive_ratio ≥ 0.6 then score + 15
      else if positive_ratio ≥ 0.4 then score + 5
      else if positive_ratio ≥ 0.2 then score - 5
      else score - 15
    else score
  let score :=
    if d.sentiment_volatility > 0.5 then score - 10
    else if d.sentiment_volatility > 0.3 then score - 5
    else score
  score

/-- `AggregatorAgent._calculate_sentiment_score` (lines 199-254); a `None`
record raises inside and the local handler returns 50. -/
def calculate_sentiment_score (sd : Option SentimentRecord) : ℚ :=
  match sd with
  | none => 50
  | some d => max 0 (min 100 (aggSentBody d))

/-- `AggregatorAgent._generate_recommendation` (lines 256-263). -/
def generate_recommendation (overall_score : ℚ) : String :=
  if overall_score ≥ recommendation_thresholds.buy then "BUY"
  else if overall_score ≥ recommendation_thresholds.hold_upper then "HOLD"
  else "SELL"

/-- Python `str.capitalize()`: first character uppercased, the rest
lowercased. -/
def pyCapitalize (s : String) : String :=
  match s.data with
  | [] => ""
  | c :: cs => String.mk (c.toUpper :: cs.map Char.toLower)

/-- Decimal rendering of a rational rounded to one digit, for the Python
f-string `{overall_score:.1f}` in the reasoning fallback. -/
def ratToDecimal1 (q : ℚ) : String :=
  let t : ℤ := round (q * 10)
  (if t < 0 then "-" else "") ++ toString (t.natAbs / 10) ++ "." ++ toString (t.natAbs % 10)

/-- `AggregatorAgent._generate_reasoning` (lines 265-335): ordered clause
assembly joined with ". ", capitalized, terminated with a period.  A `None`
raw record makes the first `.get` raise, and the local handler returns the
fallback string (line 335).  `x ≠ 0 ∧ ...` models Python float truthiness in
`if pe_ratio and ...`-style guards. -/
def reasoning_parts (fundamental_score sentiment_score overall_score : ℚ)
    (f : FundamentalRecord) (s : SentimentRecord) : List String :=
  let p1 := [if overall_score ≥ 80 then "Strong overall performance"
               else if overall_score ≥ 60 then "Good overall performance"
               else if overall_score ≥ 40 then "Mixed performance signals"
               else "Weak overall performance"]
    let p2 := [if fundamental_score ≥ 70 then "strong fundamentals"
               else if fundamental_score ≥ 50 then "decent fundamentals"
               else "weak fundamentals"]
    let p3 := match f.pe_ratio with
      | none => []
      | some pe =>
        if pe ≠ 0 ∧ pe < 15 then ["attractive valuation"]
        else if pe ≠ 0 ∧ pe > 30 then ["high valuation"]
        else []
    let p4 := match f.roe with
      | none => []
      | some roe =>
        if roe ≠ 0 then
          let roe_percent := if roe < 1 then roe * 100 else roe
          if roe_percent > 20 then ["excellent returns on equity"]
          else if roe_percent < 5 then ["low returns on equity"]
          else []
        else []
    let p5 := [if sentiment_score ≥ 70 then "positive market sentiment"
               else if sentiment_score ≥ 50 then "neutral market sentiment"
               else "negative market sentiment"]
    let p6 := if s.total_articles ≥ 10 then ["good news coverage"]
              else if s.total_articles < 2 then ["limited news coverage"]
              else []
    let p7 := match f.debt_to_equity with
      | none => []
      | some de => if de ≠ 0 ∧ de > 1.0 then ["high debt levels"] else []
    p1 ++ p2 ++ p3 ++ p4 ++ p5 ++ p6 ++ p7

/-- `AggregatorAgent._generate_reasoning` (lines 265-335), continued: with
both records present the clause list is joined with ". ", capitalized and
terminated with a period; a `None` record makes the first `.get` raise and
the local handler returns the fallback string of line 335. -/
def generate_reasoning (fundamental_score sentiment_score overall_score : ℚ)
    (fd : Option FundamentalRecord) (sd : Option SentimentRecord) : String :=
  match fd, sd with
  | some f, some s =>
    pyCapitalize (String.intercalate ". "
      (reasoning_parts fundamental_score sentiment_score overall_score f s)) ++ "."
  | _, _ =>
    "Analysis completed with overall score of " ++ ratToDecimal1 overall_score ++ "/100"

/-- `AggregatorAgent._get_error_result` (lines 337-349); keys the Python
error dict omits are `none`. -/
def get_error_result (ticker company_name error_msg : String) (now : ℚ) : AnalysisResult :=
  { ticker := ticker
    company_name := company_name
    overall_score := 0
    fundamental_score := 0
    sentiment_score := 0
    recommendation := "HOLD"
    reasoning := "Analysis failed: " ++ error_msg
    analysis_timestamp := now
    error := some error_msg }

/-- The message of the `AttributeError` raised when `.get` is called on a
`None` record in `aggregate_scores`. -/
def noneTypeGetMsg : String := "'NoneType' object has no attribute 'get'"

/-- Weight renormalization of `aggregate_scores` (lines 41-47): divide by the
total when it is positive, otherwise default both weights to 0.5. -/
def renormalized_weights (fundamental_weight sentiment_weight : ℚ) : ℚ × ℚ :=
  let total_weight := fundamental_weight + sentiment_weight
  if total_weight > 0 then
    (fundamental_weight / total_weight, sentiment_weight / total_weight)
  else (0.5, 0.5)

/-- `AggregatorAgent.aggregate_scores` (lines 15-106).  With both raw records
present (any dict, including `{}` or an error record) the body runs to the
result dict of lines 72-100.  If either record is the Python value `None`,
the `.get` calls in the result compilation (lines 87-99) raise
`AttributeError` - the score and reasoning helpers before them swallow their
own exceptions - and the outer handler (lines 104-106) returns
`_get_error_result`.  `now` is the `time.time()` reading of line 84. -/
def aggregate_scores (ticker company_name : String)
    (screening_data : Option ScreeningRecord)
    (fundamental_data : Option FundamentalRecord)
    (sentiment_data : Option SentimentRecord)
    (fundamental_weight sentiment_weight : ℚ) (now : ℚ) : AnalysisResult :=
  match fundamental_data, sentiment_data with
  | some fd, some sd =>
    let w := renormalized_weights fundamental_weight sentiment_weight
    let fundamental_score := calculate_fundamental_score (some fd)
    let sentiment_score := calculate_sentiment_score (some sd)
    let overall_score := fundamental_score * w.1 + sentiment_score * w.2
    { ticker := ticker
      company_name := company_name
      overall_score := round1 overall_score
      fundamental_score := round1 fundamental_score
      sentiment_score := round1 sentiment_score
      recommendation := generate_recommendation overall_score
      reasoning := generate_reasoning fundamental_score sentiment_score overall_score
        (some fd) (some sd)
      analysis_timestamp := now
      weights_used_fundamental := some (round1 (w.1 * 100))
      weights_used_sentiment := some (round1 (w.2 * 100))
      current_price := fd.current_price
      market_cap := fd.market_cap
      pe_ratio := fd.pe_ratio
      pb_ratio := fd.pb_ratio
      roe := fd.roe
      avg_sentiment := sd.avg_sentiment
      positive_count := some sd.positive_count
      negative_count := some sd.negative_count
      total_articles := some sd.total_articles
      fundamental_quality := some (fd.data_quality.getD "unknown")
      sentiment_quality := some (if sd.total_articles > 0 then "good" else "poor")
      error := none }
  | _, _ => get_error_result ticker company_name noneTypeGetMsg now

/-- A per-ticker bundle consumed by `batch_aggregate` (lines 355-365).  Each
field holds the value the corresponding `.get(..., default)` produces: a
missing `ticker` key yields `""`, a missing record key yields the empty dict
(`some {}`), while a key explicitly set to Python `None` yields `none`. -/
structure StockBundle where
  ticker : String := ""
  company_name : String := ""
  screening_data : Option ScreeningRecord := some {}
  fundamental_data : Option FundamentalRecord := some {}
  sentiment_data : Option SentimentRecord := some {}
deriving DecidableEq

/-- The weights dict passed to `batch_aggregate`; `.get('fundamental', 0.5)`
and `.get('sentiment', 0.5)` supply the defaults. -/
structure WeightsDict where
  fundamental : Option ℚ := none
  sentiment : Option ℚ := none
deriving DecidableEq

/-- `AggregatorAgent.batch_aggregate` (lines 351-371): sequential loop; a
`None` bundle makes `stock_data.get` raise, the handler logs and `continue`s,
so that bundle is omitted; every dict bundle contributes the result of
`aggregate_scores` (which never raises).  `now` models the clock; no claim
concerns per-entry timestamps, so one reading is threaded through.

The loop body (lines 357-365): one `aggregate_scores` call per dict bundle,
with the `.get` defaults of the source. -/
def aggregate_bundle (weights : WeightsDict) (now : ℚ) (b : StockBundle) : AnalysisResult :=
  aggregate_scores b.ticker b.company_name b.screening_data b.fundamental_data
    b.sentiment_data (weights.fundamental.getD 0.5) (weights.sentiment.getD 0.5) now

/-- The loop of `batch_aggregate` itself: sequential, one result per dict
bundle, `None` bundles skipped by the per-entry handler. -/
def batch_aggregate (stocks_data : List (Option StockBundle)) (weights : WeightsDict)
    (now : ℚ) : List AnalysisResult :=
  match stocks_data with
  | [] => []
  | none :: rest => batch_aggregate rest weights now
  | some b :: rest => aggregate_bundle weights now b :: batch_aggregate rest weights now

/-- `aggregate_scores` without its `analysis_timestamp` field, for comparing
two calls made at different wall-clock times. -/
def sansTimestamp (r : AnalysisResult) : AnalysisResult :=
  { r with analysis_timestamp := 0 }

/-- A well-formed analysis result: a genuine recommendation label and a
non-empty reasoning string. -/
def resultWellFormed (r : AnalysisResult) : Prop :=
  (r.recommendation = "BUY" ∨ r.recommendation = "HOLD" ∨ r.recommendation = "SELL") ∧
  r.reasoning ≠ ""

/-! ## Helper lemmas -/

lemma clamp_mem (x : ℚ) : 0 ≤ max 0 (min 100 x) ∧ max 0 (min 100 x) ≤ 100 :=
  ⟨le_max_left 0 _, max_le (by norm_num) (min_le_left _ _)⟩

lemma abs_round1_sub (x : ℚ) : |round1 x - x| ≤ 1 / 20 := by
  have h : |x * 10 - round (x * 10)| ≤ 1 / 2 := abs_sub_round (x * 10)
  have h10 : |round1 x - x| = |x * 10 - ((round (x * 10) : ℤ) : ℚ)| / 10 := by
    rw [abs_sub_comm, round1,
      show x - ((round (x * 10) : ℤ) : ℚ) / 10 = (x * 10 - ((round (x * 10) : ℤ) : ℚ)) / 10 by
        ring, abs_div]
    norm_num
  rw [h10]
  linarith

lemma round1_mem (x : ℚ) (h0 : 0 ≤ x) (h1 : x ≤ 100) :
    0 ≤ round1 x ∧ round1 x ≤ 100 := by
  have e : round (x * 10) = ⌊x * 10 + 1 / 2⌋ := round_eq _
  have l1 : (0 : ℤ) ≤ ⌊x * 10 + 1 / 2⌋ := by
    rw [Int.le_floor]
    push_cast
    linarith
  have l2 : ⌊x * 10 + 1 / 2⌋ ≤ 1000 := by
    have h2 : ⌊x * 10 + 1 / 2⌋ ≤ ⌊(2001 / 2 : ℚ)⌋ := Int.floor_le_floor (by linarith)
    have h3 : ⌊(2001 / 2 : ℚ)⌋ = 1000 := by norm_num
    omega
  constructor
  · rw [round1, e]
    exact div_nonneg (by exact_mod_cast l1) (by norm_num)
  · rw [round1, e, div_le_iff₀ (by norm_num : (0 : ℚ) < 10)]
    calc ((⌊x * 10 + 1 / 2⌋ : ℤ) : ℚ) ≤ ((1000 : ℤ) : ℚ) := by exact_mod_cast l2
    _ = 100 * 10 := by norm_num

lemma normalize_fundamental_score_mem (fd : Option FundamentalRecord) :
    0 ≤ normalize_fundamental_score fd ∧ normalize_fundamental_score fd ≤ 100 := by
  rcases fd with _ | d
  · norm_num [normalize_fundamental_score]
  · simp only [normalize_fundamental_score]
    split_ifs
    · norm_num
    · exact clamp_mem _

lemma normalize_sentiment_score_mem (sd : Option SentimentRecord) :
    0 ≤ normalize_sentiment_score sd ∧ normalize_sentiment_score sd ≤ 100 := by
  rcases sd with _ | d
  · norm_num [normalize_sentiment_score]
  · simp only [normalize_sentiment_score]
    split_ifs
    · norm_num
    · exact clamp_mem _

lemma calculate_fundamental_score_mem (fd : Option FundamentalRecord) :
    0 ≤ calculate_fundamental_score fd ∧ calculate_fundamental_score fd ≤ 100 := by
  rcases fd with _ | d
  · norm_num [calculate_fundamental_score]
  · exact clamp_mem _

lemma calculate_sentiment_score_mem (sd : Option SentimentRecord) :
    0 ≤ calculate_sentiment_score sd ∧ calculate_sentiment_score sd ≤ 100 := by
  rcases sd with _ | d
  · norm_num [calculate_sentiment_score]
  · exact clamp_mem _

lemma renormalized_weights_mem (fw sw : ℚ) (hfw : 0 ≤ fw) (hsw : 0 ≤ sw) :
    0 ≤ (renormalized_weights fw sw).1 ∧ 0 ≤ (renormalized_weights fw sw).2 ∧
    (renormalized_weights fw sw).1 + (renormalized_weights fw sw).2 = 1 := by
  by_cases h : fw + sw > 0
  · simp only [renormalized_weights, if_pos h]
    exact ⟨div_nonneg hfw h.le, div_nonneg hsw h.le, by
      rw [div_add_div_same, div_self h.ne']⟩
  · simp only [renormalized_weights, if_neg h]
    norm_num

lemma blend_mem (fs ss a b : ℚ) (hfs : 0 ≤ fs) (hfs' : fs ≤ 100) (hss : 0 ≤ ss)
    (hss' : ss ≤ 100) (ha : 0 ≤ a) (hb : 0 ≤ b) (hab : a + b = 1) :
    0 ≤ fs * a + ss * b ∧ fs * a + ss * b ≤ 100 := by
  constructor
  · exact add_nonneg (mul_nonneg hfs ha) (mul_nonneg hss hb)
  · have h1 : fs * a ≤ 100 * a := mul_le_mul_of_nonneg_right hfs' ha
    have h2 : ss * b ≤ 100 * b := mul_le_mul_of_nonneg_right hss' hb
    nlinarith

lemma aggregate_scores_err (t c : String) (scr : Option ScreeningRecord)
    (fdo : Option FundamentalRecord) (sdo : Option SentimentRecord) (fw sw now : ℚ)
    (h : fdo = none ∨ sdo = none) :
    aggregate_scores t c scr fdo sdo fw sw now = get_error_result t c noneTypeGetMsg now := by
  rcases fdo with _ | fd <;> rcases sdo with _ | sd <;> first | rfl | simp at h

lemma generate_recommendation_cases (s : ℚ) :
    generate_recommendation s = "BUY" ∨ generate_recommendation s = "HOLD" ∨
    generate_recommendation s = "SELL" := by
  unfold generate_recommendation
  split_ifs <;> simp

lemma ne_empty_of_append_right (s t : String) (ht : t.length ≠ 0) : s ++ t ≠ "" := by
  intro h
  have h1 : (s ++ t).length = 0 := by rw [h]; rfl
  rw [String.length_append] at h1
  omega

lemma ne_empty_of_append_left (s t : String) (hs : s.length ≠ 0) : s ++ t ≠ "" := by
  intro h
  have h1 : (s ++ t).length = 0 := by rw [h]; rfl
  rw [String.length_append] at h1
  omega

lemma aggregate_wellFormed (t c : String) (scr : Option ScreeningRecord)
    (fdo : Option FundamentalRecord) (sdo : Option SentimentRecord) (fw sw now : ℚ) :
    resultWellFormed (aggregate_scores t c scr fdo sdo fw sw now) := by
  rcases fdo with _ | fd <;> rcases sdo with _ | sd
  case none.none | none.some | some.none =>
    exact ⟨Or.inr (Or.inl rfl), ne_empty_of_append_left _ _ (by decide)⟩
  case some.some =>
    refine ⟨generate_recommendation_cases _, ?_⟩
    exact ne_empty_of_append_right _ _ (by decide)

lemma batch_wellFormed (l : List (Option StockBundle)) (w : WeightsDict) (now : ℚ) :
    ∀ r ∈ batch_aggregate l w now, resultWellFormed r := by
  induction l with
  | nil => simp [batch_aggregate]
  | cons hd tl ih =>
    rcases hd with _ | b
    · simpa [batch_aggregate] using ih
    · intro r hr
      simp only [batch_aggregate] at hr
      rw [List.mem_cons] at hr
      rcases hr with h | h
      · exact h ▸ aggregate_wellFormed _ _ _ _ _ _ _ _
      · exact ih r h

/-! ## Claim theorems -/

/-- C1: the claim states that `normalize_fundamental_score` returns the
weighted mean of the available sub-scores (Σ subscore·weight / Σ weight).
The code instead multiplies that mean by a further 100 before clamping
(line 80), so the record `{pe_ratio: 30}` - sole metric, sub-score 40,
weighted mean 40 - returns 100 rather than 40. -/
theorem fundamental_composite_pe30_divergence :
    normalize_fundamental_score (some { pe_ratio := some 30 }) = 100 ∧
    normalize_fundamental_score_specMean (some { pe_ratio := some 30 }) = 40 ∧
    (100 : ℚ) ≠ 40 := by
  refine ⟨?_, ?_, by norm_num⟩
  · norm_num [normalize_fundamental_score, fundFinalScore, fundWeightedSums, addMetric,
      normalize_pe_ratio, normalize_pb_ratio, normalize_roe, normalize_debt_to_equity,
      normalize_profit_margin, normalize_revenue_growth, pe_ratio_benchmarks,
      min_def, max_def]
  · norm_num [normalize_fundamental_score_specMean, fundWeightedSums, addMetric,
      normalize_pe_ratio, normalize_pb_ratio, normalize_roe, normalize_debt_to_equity,
      normalize_profit_margin, normalize_revenue_growth, pe_ratio_benchmarks]

/-- C2: for every weight pair, `aggregate_scores` renormalizes the weights to
sum to 1 when their total is positive, defaults both to 0.5 when the total is
≤ 0, and its `overall_score` is `fundamental_score*fw + sentiment_score*sw`
up to rounding to one decimal. -/
theorem aggregate_weight_renormalization (t c : String) (scr : Option ScreeningRecord)
    (fd : FundamentalRecord) (sd : SentimentRecord) (fw sw now : ℚ) :
    (0 < fw + sw → (renormalized_weights fw sw).1 + (renormalized_weights fw sw).2 = 1) ∧
    (fw + sw ≤ 0 → renormalized_weights fw sw = (0.5, 0.5)) ∧
    |(aggregate_scores t c scr (some fd) (some sd) fw sw now).overall_score -
        (calculate_fundamental_score (some fd) * (renormalized_weights fw sw).1 +
          calculate_sentiment_score (some sd) * (renormalized_weights fw sw).2)| ≤ 1 / 20 := by
  refine ⟨fun h => ?_, fun h => ?_, ?_⟩
  · simp only [renormalized_weights, if_pos h]
    rw [div_add_div_same, div_self h.ne']
  · simp only [renormalized_weights, if_neg (not_lt.mpr h)]
  · have e : (aggregate_scores t c scr (some fd) (some sd) fw sw now).overall_score =
        round1 (calculate_fundamental_score (some fd) * (renormalized_weights fw sw).1 +
          calculate_sentiment_score (some sd) * (renormalized_weights fw sw).2) := rfl
    rw [e]
    exact abs_round1_sub _

/-- Witness for C2 at the non-normalized pair (2,2) and the degenerate pair
(-1,-1). -/
theorem aggregate_weight_renormalization_witness :
    (renormalized_weights 2 2).1 + (renormalized_weights 2 2).2 = 1 ∧
    renormalized_weights (-1) (-1) = (0.5, 0.5) ∧
    |(aggregate_scores "TCS.NS" "Tata Consultancy Services" (some {}) (some {}) (some {})
        2 2 0).overall_score -
      (calculate_fundamental_score (some {}) * (renormalized_weights 2 2).1 +
        calculate_sentiment_score (some {}) * (renormalized_weights 2 2).2)| ≤ 1 / 20 :=
  ⟨(aggregate_weight_renormalization "TCS.NS" "Tata Consultancy Services" (some {}) {} {}
      2 2 0).1 (by norm_num),
   (aggregate_weight_renormalization "TCS.NS" "Tata Consultancy Services" (some {}) {} {}
      (-1) (-1) 0).2.1 (by norm_num),
   (aggregate_weight_renormalization "TCS.NS" "Tata Consultancy Services" (some {}) {} {}
      2 2 0).2.2⟩

/-- C3: the recommendation is BUY exactly when the overall score is ≥ 70,
HOLD exactly when it is in [40, 70), SELL exactly when it is < 40; in
particular 70.0 → BUY, 69.9 → HOLD, 40.0 → HOLD, 39.9 → SELL. -/
theorem recommendation_threshold_boundaries :
    (∀ s : ℚ, (generate_recommendation s = "BUY" ↔ 70 ≤ s) ∧
        (generate_recommendation s = "HOLD" ↔ 40 ≤ s ∧ s < 70) ∧
        (generate_recommendation s = "SELL" ↔ s < 40)) ∧
    generate_recommendation 70 = "BUY" ∧ generate_recommendation 69.9 = "HOLD" ∧
    generate_recommendation 40 = "HOLD" ∧ generate_recommendation 39.9 = "SELL" := by
  refine ⟨fun s => ?_, by norm_num [generate_recommendation, recommendation_thresholds],
    by norm_num [generate_recommendation, recommendation_thresholds],
    by norm_num [generate_recommendation, recommendation_thresholds],
    by norm_num [generate_recommendation, recommendation_thresholds]⟩
  unfold generate_recommendation recommendation_thresholds
  dsimp only
  split_ifs with h1 h2
  · exact ⟨⟨fun _ => h1, fun _ => rfl⟩,
      ⟨fun hh => absurd hh (by decide),
       fun hh => absurd (lt_of_le_of_lt h1 hh.2) (lt_irrefl 70)⟩,
      ⟨fun hh => absurd hh (by decide),
       fun hh => absurd (lt_of_le_of_lt h1 hh) (by norm_num)⟩⟩
  · exact ⟨⟨fun hh => absurd hh (by decide), fun hh => absurd hh h1⟩,
      ⟨fun _ => ⟨h2, not_le.mp h1⟩, fun _ => rfl⟩,
      ⟨fun hh => absurd hh (by decide),
       fun hh => absurd (lt_of_le_of_lt h2 hh) (lt_irrefl 40)⟩⟩
  · exact ⟨⟨fun hh => absurd hh (by decide), fun hh => absurd hh h1⟩,
      ⟨fun hh => absurd hh (by decide), fun hh => absurd hh.1 h2⟩,
      ⟨fun _ => not_le.mp h2, fun _ => rfl⟩⟩

/-- C4: for a non-error sentiment record, `normalize_sentiment_score` is
50 + avg·25 + (coverage−50)·0.20 + (ratio−50)·0.20 + (consistency−50)·0.10,
clamped to [0,100] only once at the very end, with the stepped sub-score
tables as stated; a stored-null average contributes exactly like 0. -/
theorem sentiment_composite_formula (a v : ℚ) (ta p n : ℕ) :
    normalize_sentiment_score (some (mkSentimentRecord (some a) ta p n v)) =
      max 0 (min 100 (50 + a * 25 + (normalize_article_coverage ta - 50) * 0.20 +
        (normalize_sentiment_ratio p n - 50) * 0.20 +
        (normalize_sentiment_consistency v - 50) * 0.10)) ∧
    normalize_sentiment_score (some (mkSentimentRecord none ta p n v)) =
      normalize_sentiment_score (some (mkSentimentRecord (some 0) ta p n v)) ∧
    (15 ≤ ta → normalize_article_coverage ta = 100) ∧
    (10 ≤ ta ∧ ta < 15 → normalize_article_coverage ta = 85) ∧
    (5 ≤ ta ∧ ta < 10 → normalize_article_coverage ta = 70) ∧
    (2 ≤ ta ∧ ta < 5 → normalize_article_coverage ta = 55) ∧
    (ta = 1 → normalize_article_coverage ta = 40) ∧
    (ta = 0 → normalize_article_coverage ta = 20) ∧
    (p + n = 0 → normalize_sentiment_ratio p n = 50) ∧
    (v ≤ 0.1 → normalize_sentiment_consistency v = 100) ∧
    (0.1 < v ∧ v ≤ 0.2 → normalize_sentiment_consistency v = 80) ∧
    (0.2 < v ∧ v ≤ 0.3 → normalize_sentiment_consistency v = 60) ∧
    (0.3 < v ∧ v ≤ 0.5 → normalize_sentiment_consistency v = 40) ∧
    (0.5 < v → normalize_sentiment_consistency v = 20) := by
  refine ⟨rfl, ?_, ?_, ?_, ?_, ?_, ?_, ?_, ?_, ?_, ?_, ?_, ?_, ?_⟩
  · simp only [normalize_sentiment_score, sentBody, mkSentimentRecord]
    norm_num
  · intro h
    unfold normalize_article_coverage
    rw [if_pos h]
  · intro h
    unfold normalize_article_coverage
    rw [if_neg (by omega), if_pos h.1]
  · intro h
    unfold normalize_article_coverage
    rw [if_neg (by omega), if_neg (by omega), if_pos h.1]
  · intro h
    unfold normalize_article_coverage
    rw [if_neg (by omega), if_neg (by omega), if_neg (by omega), if_pos h.1]
  · intro h
    unfold normalize_article_coverage
    rw [if_neg (by omega), if_neg (by omega), if_neg (by omega), if_neg (by omega),
      if_pos (by omega)]
  · intro h
    unfold normalize_article_coverage
    rw [if_neg (by omega), if_neg (by omega), if_neg (by omega), if_neg (by omega),
      if_neg (by omega)]
  · intro h
    simp only [normalize_sentiment_ratio]
    rw [if_pos h]
  · intro h
    unfold normalize_sentiment_consistency
    rw [if_pos h]
  · intro h
    unfold normalize_sentiment_consistency
    rw [if_neg (by linarith [h.1]), if_pos h.2]
  · intro h
    unfold normalize_sentiment_consistency
    rw [if_neg (by linarith [h.1]), if_neg (by linarith [h.1]), if_pos h.2]
  · intro h
    unfold normalize_sentiment_consistency
    rw [if_neg (by linarith [h.1]), if_neg (by linarith [h.1]), if_neg (by linarith [h.1]),
      if_pos h.2]
  · intro h
    unfold normalize_sentiment_consistency
    rw [if_neg (by linarith), if_neg (by linarith), if_neg (by linarith),
      if_neg (by linarith)]

/-- Witness for C4 at a concrete record and one input in each sub-score
band. -/
theorem sentiment_composite_formula_witness :
    normalize_sentiment_score (some (mkSentimentRecord (some 0.5) 7 3 1 0.15)) =
      max 0 (min 100 (50 + 0.5 * 25 + (normalize_article_coverage 7 - 50) * 0.20 +
        (normalize_sentiment_ratio 3 1 - 50) * 0.20 +
        (normalize_sentiment_consistency 0.15 - 50) * 0.10)) ∧
    normalize_article_coverage 20 = 100 ∧ normalize_article_coverage 12 = 85 ∧
    normalize_article_coverage 7 = 70 ∧ normalize_article_coverage 3 = 55 ∧
    normalize_article_coverage 1 = 40 ∧ normalize_article_coverage 0 = 20 ∧
    normalize_sentiment_ratio 0 0 = 50 ∧
    normalize_sentiment_consistency 0.05 = 100 ∧
    normalize_sentiment_consistency 0.15 = 80 ∧
    normalize_sentiment_consistency 0.25 = 60 ∧
    normalize_sentiment_consistency 0.4 = 40 ∧
    normalize_sentiment_consistency 0.6 = 20 :=
  ⟨(sentiment_composite_formula 0.5 0.15 7 3 1).1,
   (sentiment_composite_formula 0 0 20 0 0).2.2.1 (by norm_num),
   (sentiment_composite_formula 0 0 12 0 0).2.2.2.1 (by norm_num),
   (sentiment_composite_formula 0 0 7 0 0).2.2.2.2.1 (by norm_num),
   (sentiment_composite_formula 0 0 3 0 0).2.2.2.2.2.1 (by norm_num),
   (sentiment_composite_formula 0 0 1 0 0).2.2.2.2.2.2.1 (by norm_num),
   (sentiment_composite_formula 0 0 0 0 0).2.2.2.2.2.2.2.1 (by norm_num),
   (sentiment_composite_formula 0 0 0 0 0).2.2.2.2.2.2.2.2.1 (by norm_num),
   (sentiment_composite_formula 0 0.05 0 0 0).2.2.2.2.2.2.2.2.2.1 (by norm_num),
   (sentiment_composite_formula 0 0.15 0 0 0).2.2.2.2.2.2.2.2.2.2.1 (by norm_num),
   (sentiment_composite_formula 0 0.25 0 0 0).2.2.2.2.2.2.2.2.2.2.2.1 (by norm_num),
   (sentiment_composite_formula 0 0.4 0 0 0).2.2.2.2.2.2.2.2.2.2.2.2.1 (by norm_num),
   (sentiment_composite_formula 0 0.6 0 0 0).2.2.2.2.2.2.2.2.2.2.2.2.2 (by norm_num)⟩

/-- C5: with nonnegative weights, the two normalizer composites and the
fundamental, sentiment and overall scores of the aggregator result all lie in
[0,100]. -/
theorem scores_within_bounds (t c : String) (scr : Option ScreeningRecord)
    (fdo : Option FundamentalRecord) (sdo : Option SentimentRecord) (fw sw now : ℚ)
    (hfw : 0 ≤ fw) (hsw : 0 ≤ sw) :
    (0 ≤ normalize_fundamental_score fdo ∧ normalize_fundamental_score fdo ≤ 100) ∧
    (0 ≤ normalize_sentiment_score sdo ∧ normalize_sentiment_score sdo ≤ 100) ∧
    (0 ≤ (aggregate_scores t c scr fdo sdo fw sw now).fundamental_score ∧
      (aggregate_scores t c scr fdo sdo fw sw now).fundamental_score ≤ 100) ∧
    (0 ≤ (aggregate_scores t c scr fdo sdo fw sw now).sentiment_score ∧
      (aggregate_scores t c scr fdo sdo fw sw now).sentiment_score ≤ 100) ∧
    (0 ≤ (aggregate_scores t c scr fdo sdo fw sw now).overall_score ∧
      (aggregate_scores t c scr fdo sdo fw sw now).overall_score ≤ 100) := by
  refine ⟨normalize_fundamental_score_mem fdo, normalize_sentiment_score_mem sdo, ?_⟩
  rcases fdo with _ | fd <;> rcases sdo with _ | sd
  case none.none =>
    rw [aggregate_scores_err t c scr none none fw sw now (Or.inl rfl)]
    norm_num [get_error_result]
  case none.some =>
    rw [aggregate_scores_err t c scr none (some sd) fw sw now (Or.inl rfl)]
    norm_num [get_error_result]
  case some.none =>
    rw [aggregate_scores_err t c scr (some fd) none fw sw now (Or.inr rfl)]
    norm_num [get_error_result]
  case some.some =>
    have ef : (aggregate_scores t c scr (some fd) (some sd) fw sw now).fundamental_score =
        round1 (calculate_fundamental_score (some fd)) := rfl
    have es : (aggregate_scores t c scr (some fd) (some sd) fw sw now).sentiment_score =
        round1 (calculate_sentiment_score (some sd)) := rfl
    have eo : (aggregate_scores t c scr (some fd) (some sd) fw sw now).overall_score =
        round1 (calculate_fundamental_score (some fd) * (renormalized_weights fw sw).1 +
          calculate_sentiment_score (some sd) * (renormalized_weights fw sw).2) := rfl
    obtain ⟨ha, hb, hab⟩ := renormalized_weights_mem fw sw hfw hsw
    obtain ⟨h1, h2⟩ := calculate_fundamental_score_mem (some fd)
    obtain ⟨h3, h4⟩ := calculate_sentiment_score_mem (some sd)
    obtain ⟨h5, h6⟩ := blend_mem _ _ _ _ h1 h2 h3 h4 ha hb hab
    exact ⟨ef ▸ round1_mem _ h1 h2, es ▸ round1_mem _ h3 h4, eo ▸ round1_mem _ h5 h6⟩

/-- Witness for C5 at concrete records and weights (1,3). -/
theorem scores_within_bounds_witness :
    0 ≤ (aggregate_scores "INFY.NS" "Infosys" (some {}) (some { pe_ratio := some 12 })
        (some { avg_sentiment := some 1, total_articles := 12 }) 1 3 0).overall_score ∧
    (aggregate_scores "INFY.NS" "Infosys" (some {}) (some { pe_ratio := some 12 })
        (some { avg_sentiment := some 1, total_articles := 12 }) 1 3 0).overall_score ≤ 100 :=
  (scores_within_bounds "INFY.NS" "Infosys" (some {}) (some { pe_ratio := some 12 })
    (some { avg_sentiment := some 1, total_articles := 12 }) 1 3 0
    (by norm_num) (by norm_num)).2.2.2.2

/-- C6: every input - `None`, empty or malformed records included - yields a
well-formed result from `aggregate_scores`, `batch_aggregate` and the two
normalizers, and the exception path of `aggregate_scores` (a `None` record,
whose `.get` raises `AttributeError`) yields the zeroed HOLD error result
with reasoning "Analysis failed: {message}". -/
theorem no_exception_escapes (t c : String) (scr : Option ScreeningRecord)
    (fdo : Option FundamentalRecord) (sdo : Option SentimentRecord) (fw sw now : ℚ)
    (bundles : List (Option StockBundle)) (w : WeightsDict) :
    resultWellFormed (aggregate_scores t c scr fdo sdo fw sw now) ∧
    (∀ r ∈ batch_aggregate bundles w now, resultWellFormed r) ∧
    (0 ≤ normalize_fundamental_score fdo ∧ normalize_fundamental_score fdo ≤ 100) ∧
    (0 ≤ normalize_sentiment_score sdo ∧ normalize_sentiment_score sdo ≤ 100) ∧
    (fdo = none ∨ sdo = none →
      (aggregate_scores t c scr fdo sdo fw sw now).overall_score = 0 ∧
      (aggregate_scores t c scr fdo sdo fw sw now).fundamental_score = 0 ∧
      (aggregate_scores t c scr fdo sdo fw sw now).sentiment_score = 0 ∧
      (aggregate_scores t c scr fdo sdo fw sw now).recommendation = "HOLD" ∧
      (aggregate_scores t c scr fdo sdo fw sw now).reasoning =
        "Analysis failed: " ++ noneTypeGetMsg) := by
  refine ⟨aggregate_wellFormed t c scr fdo sdo fw sw now, batch_wellFormed bundles w now,
    normalize_fundamental_score_mem fdo, normalize_sentiment_score_mem sdo, fun h => ?_⟩
  rw [aggregate_scores_err t c scr fdo sdo fw sw now h]
  exact ⟨rfl, rfl, rfl, rfl, rfl⟩

/-- Witness for C6: a `None` fundamental record produces the zeroed HOLD
error result. -/
theorem no_exception_escapes_witness :
    (aggregate_scores "A" "B" (some {}) none (some {}) 0.5 0.5 0).overall_score = 0 ∧
    (aggregate_scores "A" "B" (some {}) none (some {}) 0.5 0.5 0).recommendation = "HOLD" ∧
    (aggregate_scores "A" "B" (some {}) none (some {}) 0.5 0.5 0).reasoning =
      "Analysis failed: " ++ noneTypeGetMsg :=
  have T := no_exception_escapes "A" "B" (some {}) none (some {}) 0.5 0.5 0 [] {}
  ⟨(T.2.2.2.2 (Or.inl rfl)).1, (T.2.2.2.2 (Or.inl rfl)).2.2.2.1,
   (T.2.2.2.2 (Or.inl rfl)).2.2.2.2⟩

/-- C7: `batch_aggregate` maps `aggregate_scores` over the bundles in order;
a bundle whose processing fails (a `None` bundle) is skipped and the batch
continues, so a batch of 5 with one bad bundle yields 4 or 5 results and the
other results are exactly their individual `aggregate_scores` outputs. -/
theorem batch_failure_isolation (w : WeightsDict) (now : ℚ) (b1 b2 b3 b4 : StockBundle)
    (bad : Option StockBundle) (stocks_data : List (Option StockBundle)) :
    batch_aggregate stocks_data w now =
      stocks_data.filterMap (fun ob => ob.map (aggregate_bundle w now)) ∧
    batch_aggregate [some b1, some b2, bad, some b3, some b4] w now =
      [aggregate_bundle w now b1, aggregate_bundle w now b2] ++
        (bad.map (aggregate_bundle w now)).toList ++
        [aggregate_bundle w now b3, aggregate_bundle w now b4] ∧
    ((batch_aggregate [some b1, some b2, bad, some b3, some b4] w now).length = 4 ∨
      (batch_aggregate [some b1, some b2, bad, some b3, some b4] w now).length = 5) := by
  refine ⟨?_, ?_, ?_⟩
  · induction stocks_data with
    | nil => rfl
    | cons hd tl ih => rcases hd with _ | b <;> simp [batch_aggregate, ih]
  · rcases bad with _ | b <;> rfl
  · rcases bad with _ | b
    · exact Or.inl rfl
    · exact Or.inr rfl

/-- C8 counterexample: two calls of `aggregate_scores` with identical ticker,
company, records and weights but made at different wall-clock times differ
(in the `analysis_timestamp` field the source fills with `time.time()`). -/
theorem aggregate_not_time_invariant :
    aggregate_scores "TCS.NS" "TCS" (some {}) (some {}) (some {}) 0.5 0.5 0 ≠
    aggregate_scores "TCS.NS" "TCS" (some {}) (some {}) (some {}) 0.5 0.5 1 := by
  intro h
  have h1 := congrArg AnalysisResult.analysis_timestamp h
  have e0 : (aggregate_scores "TCS.NS" "TCS" (some {}) (some {}) (some {})
      0.5 0.5 0).analysis_timestamp = 0 := rfl
  have e1 : (aggregate_scores "TCS.NS" "TCS" (some {}) (some {}) (some {})
      0.5 0.5 1).analysis_timestamp = 1 := rfl
  rw [e0, e1] at h1
  norm_num at h1

/-- C8 amended: apart from `analysis_timestamp` (the wall-clock reading),
`aggregate_scores` is a pure function of its arguments - two calls with
identical inputs agree on every other field. -/
theorem aggregate_pure_modulo_timestamp (t c : String) (scr : Option ScreeningRecord)
    (fdo : Option FundamentalRecord) (sdo : Option SentimentRecord)
    (fw sw t1 t2 : ℚ) :
    sansTimestamp (aggregate_scores t c scr fdo sdo fw sw t1) =
    sansTimestamp (aggregate_scores t c scr fdo sdo fw sw t2) := by
  rcases fdo with _ | fd <;> rcases sdo with _ | sd <;> rfl

/-- C9: the PE sub-score table - ≤15→100, ≤20→85, ≤25→65, ≤35→40, otherwise
max(0, 40−(pe−35)·2) - with null or non-positive PE excluded as absent, and
the concrete values 10→100, 18→85, 22→65, 30→40, 50→10. -/
theorem pe_ratio_subscore_table (pe : ℚ) :
    normalize_pe_ratio none = none ∧
    (pe ≤ 0 → normalize_pe_ratio (some pe) = none) ∧
    (0 < pe → pe ≤ 15 → normalize_pe_ratio (some pe) = some 100) ∧
    (15 < pe → pe ≤ 20 → normalize_pe_ratio (some pe) = some 85) ∧
    (20 < pe → pe ≤ 25 → normalize_pe_ratio (some pe) = some 65) ∧
    (25 < pe → pe ≤ 35 → normalize_pe_ratio (some pe) = some 40) ∧
    (35 < pe → normalize_pe_ratio (some pe) = some (max 0 (40 - (pe - 35) * 2))) ∧
    normalize_pe_ratio (some 10) = some 100 ∧ normalize_pe_ratio (some 18) = some 85 ∧
    normalize_pe_ratio (some 22) = some 65 ∧ normalize_pe_ratio (some 30) = some 40 ∧
    normalize_pe_ratio (some 50) = some 10 := by
  refine ⟨rfl, ?_, ?_, ?_, ?_, ?_, ?_,
    by norm_num [normalize_pe_ratio, pe_ratio_benchmarks, max_def],
    by norm_num [normalize_pe_ratio, pe_ratio_benchmarks, max_def],
    by norm_num [normalize_pe_ratio, pe_ratio_benchmarks, max_def],
    by norm_num [normalize_pe_ratio, pe_ratio_benchmarks, max_def],
    by norm_num [normalize_pe_ratio, pe_ratio_benchmarks, max_def]⟩
  · intro h
    unfold normalize_pe_ratio pe_ratio_benchmarks
    dsimp only
    rw [if_pos h]
  · intro h1 h2
    unfold normalize_pe_ratio pe_ratio_benchmarks
    dsimp only
    rw [if_neg (by linarith), if_pos h2]
  · intro h1 h2
    unfold normalize_pe_ratio pe_ratio_benchmarks
    dsimp only
    rw [if_neg (by linarith), if_neg (by linarith), if_pos h2]
  · intro h1 h2
    unfold normalize_pe_ratio pe_ratio_benchmarks
    dsimp only
    rw [if_neg (by linarith), if_neg (by linarith), if_neg (by linarith), if_pos h2]
  · intro h1 h2
    unfold normalize_pe_ratio pe_ratio_benchmarks
    dsimp only
    rw [if_neg (by linarith), if_neg (by linarith), if_neg (by linarith),
      if_neg (by linarith), if_pos h2]
  · intro h1
    unfold normalize_pe_ratio pe_ratio_benchmarks
    dsimp only
    rw [if_neg (by linarith), if_neg (by linarith), if_neg (by linarith),
      if_neg (by linarith), if_neg (by linarith)]

/-- Witness for C9 inside two bands. -/
theorem pe_ratio_subscore_table_witness :
    normalize_pe_ratio (some 18) = some 85 ∧ normalize_pe_ratio (some (-3)) = none :=
  ⟨(pe_ratio_subscore_table 18).2.2.2.1 (by norm_num) (by norm_num),
   (pe_ratio_subscore_table (-3)).2.1 (by norm_num)⟩

/-- C10: the all-zero (but non-empty) sentiment record scores 49, not 50: the
−6 coverage contribution and +5 consistency contribution do not cancel; a
falsy record (`None` or `{}`) scores exactly 50. -/
theorem zero_article_record_scores_49 :
    normalize_sentiment_score (some (mkSentimentRecord (some 0) 0 0 0 0)) = 49 ∧
    normalize_sentiment_score none = 50 := by
  refine ⟨?_, rfl⟩
  norm_num [normalize_sentiment_score, sentBody, mkSentimentRecord,
    normalize_article_coverage, normalize_sentiment_ratio,
    normalize_sentiment_consistency, min_def, max_def]

end StockSage
